import Mathlib

set_option maxHeartbeats 1000000
set_option linter.unusedVariables false

namespace AuthentikModel

/-!
Shallow embedding of `authentik/stages/identification/stage.py` and
`authentik/blueprints/v1/tasks.py`.

External collaborators (ORM queries, the `authenticate` backend call, the
captcha verifier, the random source, the task dispatcher, the clock) are
passed in as explicit values or oracles; everything the repository's own
code decides is translated directly from the source.
-/

/-- Searchable user fields configured on an identification stage
(`IdentificationStage.user_fields`); the model field mapping in
`IdentificationStageView.get_user` covers exactly these three keys. -/
inductive UserField
  | email
  | username
  | upn
deriving DecidableEq, Repr

/-- A stored user record. `upn` models `attributes["upn"]`, which may be absent. -/
structure User where
  username : String
  email : String
  upn : Option String
deriving DecidableEq, Repr

/-- Configuration of a linked password stage (`current_stage.password_stage`). -/
structure PasswordStageCfg where
  backends : List String
deriving DecidableEq, Repr

/-- Configuration of a linked captcha stage (`current_stage.captcha_stage`). -/
structure CaptchaStageCfg where
  js_url : String
deriving DecidableEq, Repr

/-- The identification stage configuration fields used by
`IdentificationChallengeResponse.validate`, `IdentificationStageView.get_user`
and `IdentificationStageView.challenge_valid`. -/
structure IdentificationStage where
  user_fields : List UserField
  case_insensitive_matching : Bool
  show_matched_user : Bool
  pretend_user_exists : Bool
  password_stage : Option PasswordStageCfg
  captcha_stage : Option CaptchaStageCfg
deriving DecidableEq, Repr

/-- The value a user record exposes for a searchable field; `upn` lives in the
user's attributes and may be missing. -/
def fieldValue (u : User) : UserField → Option String
  | .email => some u.email
  | .username => some u.username
  | .upn => u.upn

/-- Python `str.lower()`, written over the character list so that it reduces
by kernel evaluation. -/
def pyLower (s : String) : String :=
  String.mk (s.data.map Char.toLower)

/-- Python `str.startswith(p)`, written over the character lists so that it
reduces by kernel evaluation. -/
def pyStartsWith (s p : String) : Bool :=
  p.data.isPrefixOf s.data

/-- `__iexact` (case-insensitive equality) versus `__exact` matching, as chosen
by `case_insensitive_matching` in `get_user`. -/
def strMatches (ci : Bool) (stored uid : String) : Bool :=
  if ci then pyLower stored == pyLower uid else stored == uid

/-- One user satisfies the OR-combined `Q` query built by `get_user`: some
configured field matches the submitted identifier. -/
def userMatchesQuery (stage : IdentificationStage) (uid : String) (u : User) : Bool :=
  stage.user_fields.any fun f =>
    match fieldValue u f with
    | some v => strMatches stage.case_insensitive_matching v uid
    | none => false

/-- Result of `IdentificationStageView.get_user`, together with whether a
database query was actually issued (`User.objects.filter(query)` reached). -/
structure GetUserResult where
  result : Option User
  queried : Bool
deriving DecidableEq, Repr

/-- `IdentificationStageView.get_user`: builds the OR query over the configured
fields; an empty `Q()` (no configured fields) short-circuits to `None` without
querying; otherwise the first matching user in store order is returned. -/
def get_user (stage : IdentificationStage) (db : List User) (uid_value : String) :
    GetUserResult :=
  if stage.user_fields.isEmpty then
    { result := none, queried := false }
  else
    { result := (db.filter (userMatchesQuery stage uid_value)).head?, queried := true }

/-- The pending user written into the flow plan context: either a user resolved
from the store (or returned by `authenticate`), or the synthetic placeholder
`User(username=uid_field, email=uid_field)` built on lookup failure. -/
inductive PendingUser
  | matched (u : User)
  | placeholder (username email : String)
deriving DecidableEq, Repr

/-- The slice of the flow plan context written by this stage:
`PLAN_CONTEXT_PENDING_USER` and `PLAN_CONTEXT_PENDING_USER_IDENTIFIER`. -/
structure FlowContext where
  pending_user : Option PendingUser
  pending_user_identifier : Option String
deriving DecidableEq, Repr

/-- Behaviour of the `authenticate` collaborator for this invocation:
a user, `None`, or a raised `PermissionDenied` carrying a message. -/
inductive AuthOutcome
  | user (u : User)
  | noUser
  | permissionDenied (msg : String)
deriving DecidableEq, Repr

/-- Behaviour of the `verify_captcha_token` collaborator: passes, or raises a
validation failure carrying a message. -/
inductive CaptchaOutcome
  | ok
  | fail (msg : String)
deriving DecidableEq, Repr

/-- Observable result of one `IdentificationChallengeResponse.validate` run:
the serializer outcome (`ValidationError` message or success), the sleep the
stage performed (milliseconds), whether `identification_failed` was sent, the
flow context after the run, the final `self.pre_user`, and whether
`verify_captcha_token` was invoked. -/
structure ValidateResult where
  outcome : Except String Unit
  slept_ms : Option Nat
  signal_sent : Bool
  ctx : FlowContext
  pre_user : Option PendingUser
  captcha_invoked : Bool
deriving Repr

/-- The password-check tail of `validate` (lines after the captcha check):
no password stage means success; otherwise delegate to `authenticate`, turn
`None` into the generic `ValidationError`, replace `pre_user` on success, and
turn `PermissionDenied` into a `ValidationError` carrying the denial's own
message (`ValidationError(str(exc))`). -/
def validatePassword (ctx0 : FlowContext) (preU : PendingUser)
    (passwordStage : Option PasswordStageCfg) (auth : AuthOutcome)
    (captchaInvoked : Bool) : ValidateResult :=
  match passwordStage with
  | none =>
    { outcome := .ok (), slept_ms := none, signal_sent := false, ctx := ctx0,
      pre_user := some preU, captcha_invoked := captchaInvoked }
  | some _ =>
    match auth with
    | .user u =>
      { outcome := .ok (), slept_ms := none, signal_sent := false, ctx := ctx0,
        pre_user := some (.matched u), captcha_invoked := captchaInvoked }
    | .noUser =>
      { outcome := .error "Failed to authenticate.", slept_ms := none,
        signal_sent := false, ctx := ctx0, pre_user := some preU,
        captcha_invoked := captchaInvoked }
    | .permissionDenied msg =>
      { outcome := .error msg, slept_ms := none, signal_sent := false,
        ctx := ctx0, pre_user := some preU, captcha_invoked := captchaInvoked }

/-- `IdentificationChallengeResponse.validate`. `r` is the value returned by
`SystemRandom().randint(3, 7)`; the stage sleeps `0.030 * r` seconds, i.e.
`30 * r` milliseconds, only on the no-match branch. On no match the placeholder
pending user (and, when `show_matched_user` is off, the raw identifier) is
written into the plan context before the generic failure is raised; when
`pretend_user_exists` is set and no password stage is configured the attempt
continues regardless. On a match, the captcha check runs first (when a captcha
stage is configured), then the password check. `password` and `captcha_token`
are forwarded to the `authenticate` and `verify_captcha_token` collaborators,
whose behaviour for this invocation is the `auth` and `captcha` oracles; an
absent value only triggers a log warning in the source. -/
def validate (stage : IdentificationStage) (db : List User) (ctx0 : FlowContext)
    (uid_field : String) (password : Option String) (captcha_token : Option String)
    (r : Nat) (auth : AuthOutcome) (captcha : CaptchaOutcome) :
    ValidateResult :=
  match (get_user stage db uid_field).result with
  | none =>
    let ctx1 : FlowContext :=
      { ctx0 with pending_user := some (.placeholder uid_field uid_field) }
    let ctx2 : FlowContext :=
      if !stage.show_matched_user then
        { ctx1 with pending_user_identifier := some uid_field }
      else ctx1
    let preU : Option PendingUser := some (.placeholder uid_field uid_field)
    if stage.pretend_user_exists && stage.password_stage.isNone then
      { outcome := .ok (), slept_ms := some (30 * r), signal_sent := true,
        ctx := ctx2, pre_user := preU, captcha_invoked := false }
    else
      { outcome := .error "Failed to authenticate.", slept_ms := some (30 * r),
        signal_sent := true, ctx := ctx2, pre_user := preU,
        captcha_invoked := false }
  | some matchedUser =>
    match stage.captcha_stage with
    | some _ =>
      match captcha with
      | .fail msg =>
        { outcome := .error msg, slept_ms := none, signal_sent := false,
          ctx := ctx0, pre_user := some (.matched matchedUser),
          captcha_invoked := true }
      | .ok =>
        validatePassword ctx0 (.matched matchedUser) stage.password_stage auth true
    | none =>
      validatePassword ctx0 (.matched matchedUser) stage.password_stage auth false

/-- `IdentificationStageView.challenge_valid`: store `response.pre_user` under
`PLAN_CONTEXT_PENDING_USER`, and, when `show_matched_user` is off, additionally
store the submitted identifier under `PLAN_CONTEXT_PENDING_USER_IDENTIFIER`. -/
def challenge_valid (stage : IdentificationStage) (ctx : FlowContext)
    (pre_user : Option PendingUser) (uid_field : String) : FlowContext :=
  let ctx1 : FlowContext := { ctx with pending_user := pre_user }
  if !stage.show_matched_user then
    { ctx1 with pending_user_identifier := some uid_field }
  else ctx1

/-- One full identification attempt: run `validate`; when it succeeds the
executor calls `challenge_valid`, which writes the final flow context. -/
def runIdentification (stage : IdentificationStage) (db : List User)
    (ctx0 : FlowContext) (uid_field : String) (password : Option String)
    (captcha_token : Option String) (r : Nat) (auth : AuthOutcome)
    (captcha : CaptchaOutcome) : ValidateResult :=
  let v := validate stage db ctx0 uid_field password captcha_token r auth captcha
  match v.outcome with
  | .ok _ => { v with ctx := challenge_valid stage v.ctx v.pre_user uid_field }
  | .error _ => v

/-! ## Blueprint v1 tasks (`authentik/blueprints/v1/tasks.py`) -/

/-- `BlueprintMetadata`: the decoded `metadata` block of a blueprint file. -/
structure BlueprintMetadata where
  name : String
  labels : List (String × String)
deriving DecidableEq, Repr

/-- `BlueprintInstanceStatus` values used by these tasks. -/
inductive BlueprintInstanceStatus
  | unknown
  | successful
  | error
deriving DecidableEq, Repr

/-- `BlueprintInstance`: the durable per-blueprint record. `metadata = none`
models the empty dict a fresh instance is created with; `some m` models
`asdict(m)` written by the apply task. -/
structure BlueprintInstance where
  pk : String
  name : String
  path : String
  context : List (String × String)
  status : BlueprintInstanceStatus
  enabled : Bool
  managed_models : List String
  metadata : Option BlueprintMetadata
  last_applied_hash : String
  last_applied : Option Nat
deriving DecidableEq, Repr

/-- `BlueprintFile`: basic info about a scanned blueprint file. -/
structure BlueprintFile where
  path : String
  version : Nat
  hash : String
  last_m : Int
  meta : Option BlueprintMetadata
deriving DecidableEq, Repr

/-- The value of `LABEL_AUTHENTIK_INSTANTIATE` from
`authentik/blueprints/v1/labels.py`; only its identity matters here. -/
def LABEL_AUTHENTIK_INSTANTIATE : String := "blueprints.goauthentik.io/instantiate"

/-- Python `dict.get(key, default)` over a label mapping. -/
def labelsGet (labels : List (String × String)) (key dflt : String) : String :=
  match labels.lookup key with
  | some v => v
  | none => dflt

/-- The guard `blueprint.meta and
blueprint.meta.labels.get(LABEL_AUTHENTIK_INSTANTIATE, "").lower() == "false"`
in `check_blueprint_v1_file`. -/
def instantiateSkipped (bp : BlueprintFile) : Bool :=
  match bp.meta with
  | some m => pyLower (labelsGet m.labels LABEL_AUTHENTIK_INSTANTIATE "") == "false"
  | none => false

/-- `check_blueprint_v1_file`: look up the instance by path; skip entirely when
the instantiate label is `"false"`; create (and persist) a fresh instance when
none exists, with `fresh_pk` standing for the store-assigned primary key; then
schedule `apply_blueprint.delay(str(instance.pk))` exactly when
`instance.last_applied_hash != blueprint.hash`. Returns the updated store and
the list of scheduled instance pks. -/
def check_blueprint_v1_file (store : List BlueprintInstance) (fresh_pk : String)
    (blueprint : BlueprintFile) : List BlueprintInstance × List String :=
  let found := store.find? fun i => i.path == blueprint.path
  if instantiateSkipped blueprint then
    (store, [])
  else
    match found with
    | some inst =>
      if inst.last_applied_hash != blueprint.hash then
        (store, [inst.pk])
      else
        (store, [])
    | none =>
      let inst : BlueprintInstance :=
        { pk := fresh_pk
          name := match blueprint.meta with
                  | some m => m.name
                  | none => blueprint.path
          path := blueprint.path
          context := []
          status := .unknown
          enabled := true
          managed_models := []
          metadata := none
          last_applied_hash := ""
          last_applied := none }
      let store := store ++ [inst]
      if inst.last_applied_hash != blueprint.hash then
        (store, [inst.pk])
      else
        (store, [])

/-- Python truthiness check of
`any(part for part in path.parts if part.startswith("."))`: the generator
yields the dot-prefixed parts, and `any` tests their truthiness (non-empty). -/
def pyHiddenAny (parts : List String) : Bool :=
  (parts.filter fun part => pyStartsWith part ".").any fun part => part != ""

/-- The hidden-file skip condition of `blueprints_find`. The scanned `path`
comes from `root.rglob(...)`, so `path.parts` is the root's own segments
followed by the segments relative to the root. -/
def hiddenSkip (root_parts rel_parts : List String) : Bool :=
  pyHiddenAny (root_parts ++ rel_parts)

/-- A parsed blueprint document as `blueprints_find` reads it: optional
`metadata` block and the declared `version` (defaulting to 1 when absent). -/
structure RawDoc where
  metadata : Option BlueprintMetadata
  version : Nat
deriving DecidableEq, Repr

/-- A candidate `*.yaml` file under the blueprint root, as presented to the
scan: its path segments relative to the root, the parse outcome (`none` models
both a `YAMLError` and an empty/falsy document, which are skipped alike), the
digest of its raw bytes and its modification time. -/
structure CandidateFile where
  rel_parts : List String
  parsed : Option RawDoc
  content_hash : String
  mtime : Int
deriving DecidableEq, Repr

/-- Processing of one candidate in the `blueprints_find` loop: skip on a
hidden segment, skip on parse failure or empty document, skip on a version
other than 1, otherwise produce the descriptor. -/
def processCandidate (root_parts : List String) (f : CandidateFile) :
    Option BlueprintFile :=
  if hiddenSkip root_parts f.rel_parts then none
  else
    match f.parsed with
    | none => none
    | some raw =>
      if raw.version != 1 then none
      else
        some { path := String.intercalate "/" f.rel_parts
               version := raw.version
               hash := f.content_hash
               last_m := f.mtime
               meta := raw.metadata }

/-- `blueprints_find`: scan all candidate files and return the valid ones. -/
def blueprints_find (root_parts : List String) (files : List CandidateFile) :
    List BlueprintFile :=
  files.filterMap (processCandidate root_parts)

/-- The recognized failure classes caught at the `apply_blueprint` task
boundary. -/
inductive RecognizedExc
  | osError
  | databaseError
  | programmingError
  | internalError
  | blueprintRetrievalFailed
  | entryInvalidError
deriving DecidableEq, Repr

/-- Outcome of one collaborator step: a value, or one of the recognized
exception classes raised. -/
inductive StepResult (α : Type)
  | ok (a : α)
  | exc (e : RecognizedExc)
deriving DecidableEq, Repr

/-- Behaviour of the `Importer` collaborator built by
`Importer.from_string(content, context)`: the parsed blueprint's optional
metadata, the result of `validate()` (a validity flag and log lines), and the
result of `apply()` together with the logs captured around it. -/
structure ImporterModel where
  metadata : Option BlueprintMetadata
  validate_result : StepResult (Bool × List String)
  apply_result : StepResult Bool
  apply_logs : List String
deriving DecidableEq, Repr

/-- A status report made through the task framework: `set_status(SUCCESSFUL)`,
`set_status(ERROR, *logs)`, or `set_error(exc)`. -/
inductive TaskReport
  | statusSuccessful
  | statusError (logs : List String)
  | setError (e : RecognizedExc)
deriving DecidableEq, Repr

/-- Observable result of one `apply_blueprint` run: the final in-memory
instance, whether the `finally` block persisted it, and the status report made
(none on the silent no-op paths). Recognized exceptions never escape, so the
task always returns such a record. -/
structure ApplyBlueprintResult where
  final_instance : Option BlueprintInstance
  saved : Bool
  task_status : Option TaskReport
deriving DecidableEq, Repr

/-- The `try` body of `apply_blueprint` after the enabled instance is in hand:
retrieve content, digest it, build the importer, copy its metadata onto the
instance, validate, apply, and on full success stamp status/hash/time. A
recognized exception at any step aborts with the instance as mutated so far.
(`inst` stands for the source's `instance` variable; `instance` is reserved in
Lean.) -/
def applyBody (inst : BlueprintInstance) (retrieve : StepResult String)
    (digest : String → String) (from_string : String → StepResult ImporterModel)
    (time_now : Nat) :
    Except (RecognizedExc × BlueprintInstance) (BlueprintInstance × TaskReport) :=
  match retrieve with
  | .exc e => .error (e, inst)
  | .ok blueprint_content =>
    let file_hash := digest blueprint_content
    match from_string blueprint_content with
    | .exc e => .error (e, inst)
    | .ok importer =>
      let inst :=
        match importer.metadata with
        | some m => { inst with metadata := some m }
        | none => inst
      match importer.validate_result with
      | .exc e => .error (e, inst)
      | .ok (valid, logs) =>
        if !valid then
          .ok ({ inst with status := .error }, .statusError logs)
        else
          match importer.apply_result with
          | .exc e => .error (e, inst)
          | .ok applied =>
            if !applied then
              .ok ({ inst with status := .error }, .statusError importer.apply_logs)
            else
              .ok ({ inst with
                      status := .successful
                      last_applied_hash := file_hash
                      last_applied := some time_now }, .statusSuccessful)

/-- `apply_blueprint`: fetch the instance by pk; exit silently when missing or
disabled; run the body; a recognized exception sets status to Error and is
reported via `set_error` instead of propagating; the `finally` block persists
the instance whenever one was fetched. -/
def apply_blueprint (store : List BlueprintInstance) (instance_pk : String)
    (retrieve : StepResult String) (digest : String → String)
    (from_string : String → StepResult ImporterModel) (time_now : Nat) :
    ApplyBlueprintResult :=
  match store.find? fun i => i.pk == instance_pk with
  | none => { final_instance := none, saved := false, task_status := none }
  | some inst =>
    if !inst.enabled then
      { final_instance := some inst, saved := true, task_status := none }
    else
      match applyBody inst retrieve digest from_string time_now with
      | .ok (inst, report) =>
        { final_instance := some inst, saved := true, task_status := some report }
      | .error (e, inst) =>
        { final_instance := some { inst with status := .error }, saved := true,
          task_status := some (.setError e) }

/-! ## Concrete fixtures used by witnesses and counterexamples -/

/-- A stored user. -/
def aliceUser : User :=
  { username := "alice", email := "alice@example.com", upn := none }

/-- Stage matching on username, `show_matched_user` off, no password or
captcha stage. -/
def stageBasic : IdentificationStage :=
  { user_fields := [.username], case_insensitive_matching := false,
    show_matched_user := false, pretend_user_exists := false,
    password_stage := none, captcha_stage := none }

/-- Stage with a captcha stage configured and no password stage. -/
def stageCaptcha : IdentificationStage :=
  { user_fields := [.username], case_insensitive_matching := false,
    show_matched_user := true, pretend_user_exists := false,
    password_stage := none,
    captcha_stage := some { js_url := "https://captcha.example/api.js" } }

/-- Stage with a password stage configured (ident + auth combo). -/
def stagePw : IdentificationStage :=
  { user_fields := [.username], case_insensitive_matching := false,
    show_matched_user := true, pretend_user_exists := false,
    password_stage := some { backends := ["django.contrib.auth.backends.ModelBackend"] },
    captcha_stage := none }

/-- Stage with no searchable fields configured and `pretend_user_exists` on. -/
def stagePretendEmpty : IdentificationStage :=
  { user_fields := [], case_insensitive_matching := false,
    show_matched_user := true, pretend_user_exists := true,
    password_stage := none, captcha_stage := none }

/-- Stage with no searchable fields configured and `pretend_user_exists` off. -/
def stageEmptyFields : IdentificationStage :=
  { user_fields := [], case_insensitive_matching := false,
    show_matched_user := true, pretend_user_exists := false,
    password_stage := none, captcha_stage := none }

/-- A stored blueprint instance whose `last_applied_hash` is stale. -/
def instOld : BlueprintInstance :=
  { pk := "pk1", name := "bp one", path := "one.yaml", context := [],
    status := .successful, enabled := true, managed_models := [],
    metadata := none, last_applied_hash := "oldhash", last_applied := none }

/-- A scanned file at `instOld`'s path with changed content and an
`instantiate: false` label. -/
def bpLabeled : BlueprintFile :=
  { path := "one.yaml", version := 1, hash := "newhash", last_m := 0,
    meta := some { name := "bp one",
                   labels := [(LABEL_AUTHENTIK_INSTANTIATE, "False")] } }

/-- A scanned file at `instOld`'s path with changed content and no metadata. -/
def bpPlain : BlueprintFile :=
  { path := "one.yaml", version := 1, hash := "newhash", last_m := 0,
    meta := none }

/-- A never-applied, enabled blueprint instance. -/
def instFresh : BlueprintInstance :=
  { pk := "pk2", name := "bp two", path := "two.yaml", context := [],
    status := .unknown, enabled := true, managed_models := [],
    metadata := none, last_applied_hash := "", last_applied := none }

/-- A disabled blueprint instance. -/
def instDisabled : BlueprintInstance :=
  { pk := "pk3", name := "bp three", path := "three.yaml", context := [],
    status := .unknown, enabled := false, managed_models := [],
    metadata := none, last_applied_hash := "", last_applied := none }

/-- An importer whose validation and apply both succeed. -/
def impOk : ImporterModel :=
  { metadata := none, validate_result := .ok (true, []),
    apply_result := .ok true, apply_logs := [] }

/-- A concrete deterministic digest for fixtures. -/
def digestTag (s : String) : String :=
  String.append s "#digest"

/-- `instFresh` after one successful apply of content `"content"` at time 100. -/
def instApplied : BlueprintInstance :=
  { instFresh with status := .successful,
                   last_applied_hash := digestTag "content",
                   last_applied := some 100 }

/-! ## Claims -/

/-- C10: for every identification attempt whose submitted identifier resolves
to no user, the captcha collaborator's verify function is never invoked, even
when a captcha stage is configured and a captcha token was submitted: captcha
verification happens only after a user has been matched. -/
theorem C10_no_captcha_without_match (stage : IdentificationStage)
    (db : List User) (ctx0 : FlowContext) (uid : String) (pw tok : Option String)
    (r : Nat) (auth : AuthOutcome) (cap : CaptchaOutcome)
    (h : (get_user stage db uid).result = none) :
    (validate stage db ctx0 uid pw tok r auth cap).captcha_invoked = false := by
  simp only [validate, h]
  split <;> rfl

/-- Witness for C10 at a concrete input: captcha stage configured, token
submitted, identifier unmatched. -/
theorem C10_witness :
    (get_user stageCaptcha [aliceUser] "ghost").result = none
    ∧ (validate stageCaptcha [aliceUser] ⟨none, none⟩ "ghost" none (some "tok") 3
        .noUser .ok).captcha_invoked = false :=
  ⟨rfl, C10_no_captcha_without_match stageCaptcha [aliceUser] ⟨none, none⟩ "ghost"
    none (some "tok") 3 .noUser .ok rfl⟩

/-- C3: for every identification attempt whose submitted identifier matches no
user, the stage sleeps `30 * r` milliseconds where `r` is drawn by
`randint(3, 7)`: a multiple of 30 ms in {90, 120, 150, 180, 210}, so the delay
is at least 90 ms and at most 210 ms; moreover every value of that set is hit
by some admissible draw, so a uniform draw of `r` makes the delay uniform on
that set. -/
theorem C3_invalid_identifier_sleep (stage : IdentificationStage)
    (db : List User) (ctx0 : FlowContext) (uid : String) (pw tok : Option String)
    (r : Nat) (auth : AuthOutcome) (cap : CaptchaOutcome)
    (h : (get_user stage db uid).result = none) (h3 : 3 ≤ r) (h7 : r ≤ 7) :
    (validate stage db ctx0 uid pw tok r auth cap).slept_ms = some (30 * r)
    ∧ 30 * r ∈ ([90, 120, 150, 180, 210] : List Nat)
    ∧ 90 ≤ 30 * r ∧ 30 * r ≤ 210
    ∧ ∀ d ∈ ([90, 120, 150, 180, 210] : List Nat), ∃ r2, 3 ≤ r2 ∧ r2 ≤ 7 ∧
        (validate stage db ctx0 uid pw tok r2 auth cap).slept_ms = some d := by
  have hs : ∀ r2 : Nat,
      (validate stage db ctx0 uid pw tok r2 auth cap).slept_ms = some (30 * r2) := by
    intro r2
    simp only [validate, h]
    split <;> rfl
  refine ⟨hs r, ?_, by omega, by omega, ?_⟩
  · interval_cases r <;> decide
  · intro d hd
    fin_cases hd
    · exact ⟨3, by omega, by omega, hs 3⟩
    · exact ⟨4, by omega, by omega, hs 4⟩
    · exact ⟨5, by omega, by omega, hs 5⟩
    · exact ⟨6, by omega, by omega, hs 6⟩
    · exact ⟨7, by omega, by omega, hs 7⟩

/-- Witness for C3 at a concrete input: unmatched identifier, draw `r = 4`. -/
theorem C3_witness :
    (get_user stageBasic [aliceUser] "ghost").result = none
    ∧ (validate stageBasic [aliceUser] ⟨none, none⟩ "ghost" none none 4
        .noUser .ok).slept_ms = some (30 * 4) :=
  ⟨rfl, (C3_invalid_identifier_sleep stageBasic [aliceUser] ⟨none, none⟩ "ghost"
    none none 4 .noUser .ok rfl (by omega) (by omega)).1⟩

/-- C7: a scanned blueprint whose metadata labels carry an instantiate label
equal to `"false"` case-insensitively is skipped entirely by reconciliation:
the instance store is unchanged (no instance created) and no apply task is
scheduled, even when an instance for that path already exists. -/
theorem C7_instantiate_false_never_applied (store : List BlueprintInstance)
    (fresh_pk : String) (bp : BlueprintFile) (m : BlueprintMetadata) (v : String)
    (hm : bp.meta = some m)
    (hv : m.labels.lookup LABEL_AUTHENTIK_INSTANTIATE = some v)
    (hfalse : pyLower v = "false") :
    check_blueprint_v1_file store fresh_pk bp = (store, []) := by
  have hskip : instantiateSkipped bp = true := by
    simp [instantiateSkipped, hm, labelsGet, hv, hfalse]
  simp [check_blueprint_v1_file, hskip]

/-- Witness for C7 at a concrete input: an instance for the path exists, the
file content changed, and the label value is the mixed-case `"False"`. -/
theorem C7_witness :
    bpLabeled.meta = some { name := "bp one",
                            labels := [(LABEL_AUTHENTIK_INSTANTIATE, "False")] }
    ∧ ({ name := "bp one", labels := [(LABEL_AUTHENTIK_INSTANTIATE, "False")] }
        : BlueprintMetadata).labels.lookup LABEL_AUTHENTIK_INSTANTIATE = some "False"
    ∧ pyLower "False" = "false"
    ∧ check_blueprint_v1_file [instOld] "freshpk" bpLabeled = ([instOld], []) :=
  ⟨rfl, by decide, by decide,
   C7_instantiate_false_never_applied [instOld] "freshpk" bpLabeled
     { name := "bp one", labels := [(LABEL_AUTHENTIK_INSTANTIATE, "False")] }
     "False" rfl (by decide) (by decide)⟩

/-- On a matched identifier, `validate` leaves the plan context untouched and
ends with a resolved (matched) pending user. -/
theorem validate_matched_ok_shape (stage : IdentificationStage) (db : List User)
    (ctx0 : FlowContext) (uid : String) (pw tok : Option String) (r : Nat)
    (auth : AuthOutcome) (cap : CaptchaOutcome) (u : User)
    (hmatch : (get_user stage db uid).result = some u) :
    (validate stage db ctx0 uid pw tok r auth cap).ctx = ctx0
    ∧ ∃ w, (validate stage db ctx0 uid pw tok r auth cap).pre_user
        = some (.matched w) := by
  rcases hcs : stage.captcha_stage with _ | cs <;>
    rcases hps : stage.password_stage with _ | ps <;>
    rcases auth with u2 | _ | amsg <;>
    rcases cap with _ | cmsg <;>
    simp only [validate, hmatch, hcs, hps, validatePassword] <;>
    exact ⟨by simp, _, rfl⟩

/-- Counterexample to C1 as stated: with `show_matched_user = false` and a
matching identifier, the downstream flow context does hold the resolved user
object under the pending-user key (alongside the raw identifier), so it does
not store "only" the raw identifier. -/
theorem C1_counterexample :
    stageBasic.show_matched_user = false
    ∧ (get_user stageBasic [aliceUser] "alice").result = some aliceUser
    ∧ (runIdentification stageBasic [aliceUser] ⟨none, none⟩ "alice" none none 3
        .noUser .ok).outcome = .ok ()
    ∧ (runIdentification stageBasic [aliceUser] ⟨none, none⟩ "alice" none none 3
        .noUser .ok).ctx.pending_user = some (.matched aliceUser)
    ∧ (runIdentification stageBasic [aliceUser] ⟨none, none⟩ "alice" none none 3
        .noUser .ok).ctx.pending_user_identifier = some "alice" :=
  ⟨rfl, rfl, rfl, rfl, rfl⟩

/-- C1 (amended): for every identification attempt in which the stage is
configured with `show_matched_user = false`, the submitted identifier matches a
user and the attempt succeeds, the downstream flow context stores the raw
identifier string under the separate identifier key in addition to — not
instead of — the resolved user object, which is stored under the pending-user
key. -/
theorem C1_amended_identifier_alongside_user (stage : IdentificationStage)
    (db : List User) (ctx0 : FlowContext) (uid : String) (pw tok : Option String)
    (r : Nat) (auth : AuthOutcome) (cap : CaptchaOutcome) (u : User)
    (hshow : stage.show_matched_user = false)
    (hmatch : (get_user stage db uid).result = some u)
    (hok : (runIdentification stage db ctx0 uid pw tok r auth cap).outcome
        = .ok ()) :
    (runIdentification stage db ctx0 uid pw tok r auth cap).ctx.pending_user_identifier
      = some uid
    ∧ ∃ w, (runIdentification stage db ctx0 uid pw tok r auth cap).ctx.pending_user
        = some (.matched w) := by
  rcases hvo : (validate stage db ctx0 uid pw tok r auth cap).outcome with msg | ⟨⟩
  · simp only [runIdentification, hvo] at hok
    exact absurd hok (by simp)
  · obtain ⟨hctx, w, hpre⟩ := validate_matched_ok_shape stage db ctx0 uid pw tok r
      auth cap u hmatch
    simp only [runIdentification, hvo, challenge_valid, hshow, hpre,
      Bool.not_false, if_pos]
    exact ⟨by simp, w, by simp⟩

/-- Witness for C1 (amended) at a concrete input. -/
theorem C1_witness :
    stageBasic.show_matched_user = false
    ∧ (get_user stageBasic [aliceUser] "alice").result = some aliceUser
    ∧ ((runIdentification stageBasic [aliceUser] ⟨none, none⟩ "alice" none none 3
        .noUser .ok).ctx.pending_user_identifier = some "alice"
       ∧ ∃ w, (runIdentification stageBasic [aliceUser] ⟨none, none⟩ "alice" none
          none 3 .noUser .ok).ctx.pending_user = some (.matched w)) :=
  ⟨rfl, rfl,
   C1_amended_identifier_alongside_user stageBasic [aliceUser] ⟨none, none⟩
     "alice" none none 3 .noUser .ok aliceUser rfl rfl rfl⟩

/-- Counterexample to C2 as stated: a permission denial raised by the
authentication collaborator surfaces as a validation failure carrying the
denial's own message, which differs from the generic failure message, so the
user-visible error is distinguishable from the generic one. -/
theorem C2_counterexample :
    (get_user stagePw [aliceUser] "alice").result = some aliceUser
    ∧ (validate stagePw [aliceUser] ⟨none, none⟩ "alice" (some "pw") none 3
        (.permissionDenied "Access denied") .ok).outcome = .error "Access denied"
    ∧ "Access denied" ≠ "Failed to authenticate." :=
  ⟨rfl, rfl, by decide⟩

/-- C2 (amended): with a password stage configured, a wrong password for an
existing identifier and a non-matching identifier both produce the identical
generic validation failure `"Failed to authenticate."`, so those two cases are
indistinguishable; a permission denial raised by the authentication
collaborator also becomes a validation failure, but one carrying the denial's
own message rather than the generic one. -/
theorem C2_amended_generic_failure :
    (∀ (stage : IdentificationStage) (db : List User) (ctx0 : FlowContext)
        (uid : String) (pw tok : Option String) (r : Nat)
        (pwcfg : PasswordStageCfg) (u : User),
      stage.password_stage = some pwcfg →
      (get_user stage db uid).result = some u →
      (validate stage db ctx0 uid pw tok r .noUser .ok).outcome
        = .error "Failed to authenticate.")
    ∧ (∀ (stage : IdentificationStage) (db : List User) (ctx0 : FlowContext)
        (uid : String) (pw tok : Option String) (r : Nat)
        (auth : AuthOutcome) (cap : CaptchaOutcome) (pwcfg : PasswordStageCfg),
      stage.password_stage = some pwcfg →
      (get_user stage db uid).result = none →
      (validate stage db ctx0 uid pw tok r auth cap).outcome
        = .error "Failed to authenticate.")
    ∧ (∀ (stage : IdentificationStage) (db : List User) (ctx0 : FlowContext)
        (uid : String) (pw tok : Option String) (r : Nat)
        (pwcfg : PasswordStageCfg) (u : User) (msg : String),
      stage.password_stage = some pwcfg →
      (get_user stage db uid).result = some u →
      (validate stage db ctx0 uid pw tok r (.permissionDenied msg) .ok).outcome
        = .error msg) := by
  refine ⟨?_, ?_, ?_⟩
  · intro stage db ctx0 uid pw tok r pwcfg u hps hmatch
    simp only [validate, hmatch]
    rcases stage.captcha_stage with _ | cs <;>
      simp only [validatePassword, hps]
  · intro stage db ctx0 uid pw tok r auth cap pwcfg hps hnone
    simp only [validate, hnone, hps]
    simp
  · intro stage db ctx0 uid pw tok r pwcfg u msg hps hmatch
    simp only [validate, hmatch]
    rcases stage.captcha_stage with _ | cs <;>
      simp only [validatePassword, hps]

/-- Witness for C2 (amended) at concrete inputs: wrong password and unknown
identifier give the identical generic message; a permission denial gives its
own message. -/
theorem C2_witness :
    stagePw.password_stage
      = some { backends := ["django.contrib.auth.backends.ModelBackend"] }
    ∧ (get_user stagePw [aliceUser] "alice").result = some aliceUser
    ∧ (get_user stagePw [aliceUser] "ghost").result = none
    ∧ (validate stagePw [aliceUser] ⟨none, none⟩ "alice" (some "wrong") none 3
        .noUser .ok).outcome = .error "Failed to authenticate."
    ∧ (validate stagePw [aliceUser] ⟨none, none⟩ "ghost" (some "wrong") none 3
        .noUser .ok).outcome = .error "Failed to authenticate."
    ∧ (validate stagePw [aliceUser] ⟨none, none⟩ "alice" (some "pw") none 3
        (.permissionDenied "Blocked") .ok).outcome = .error "Blocked" :=
  ⟨rfl, rfl, rfl,
   C2_amended_generic_failure.1 stagePw [aliceUser] ⟨none, none⟩ "alice"
     (some "wrong") none 3 { backends := ["django.contrib.auth.backends.ModelBackend"] }
     aliceUser rfl rfl,
   C2_amended_generic_failure.2.1 stagePw [aliceUser] ⟨none, none⟩ "ghost"
     (some "wrong") none 3 .noUser .ok
     { backends := ["django.contrib.auth.backends.ModelBackend"] } rfl rfl,
   C2_amended_generic_failure.2.2 stagePw [aliceUser] ⟨none, none⟩ "alice"
     (some "pw") none 3 { backends := ["django.contrib.auth.backends.ModelBackend"] }
     aliceUser "Blocked" rfl rfl⟩

/-- Counterexample to C9 as stated: with an empty searchable-field set but
`pretend_user_exists` enabled and no password stage, the attempt is not
rejected — validation succeeds. -/
theorem C9_counterexample :
    stagePretendEmpty.user_fields = []
    ∧ (validate stagePretendEmpty [aliceUser] ⟨none, none⟩ "whoever" none none 3
        .noUser .ok).outcome = .ok () :=
  ⟨rfl, rfl⟩

/-- C9 (amended): with an empty searchable-field set, no lookup query is ever
issued against the user store and no user is resolved; the attempt is rejected
with the generic failure unless `pretend_user_exists` is enabled while no
password stage is configured, in which case validation succeeds despite the
missing user. -/
theorem C9_amended_empty_fields (stage : IdentificationStage) (db : List User)
    (ctx0 : FlowContext) (uid : String) (pw tok : Option String) (r : Nat)
    (auth : AuthOutcome) (cap : CaptchaOutcome)
    (hf : stage.user_fields = []) :
    (get_user stage db uid).queried = false
    ∧ (get_user stage db uid).result = none
    ∧ (¬(stage.pretend_user_exists = true ∧ stage.password_stage = none) →
        (validate stage db ctx0 uid pw tok r auth cap).outcome
          = .error "Failed to authenticate.")
    ∧ ((stage.pretend_user_exists = true ∧ stage.password_stage = none) →
        (validate stage db ctx0 uid pw tok r auth cap).outcome = .ok ()) := by
  have hq : get_user stage db uid = { result := none, queried := false } := by
    simp [get_user, hf]
  have hres : (get_user stage db uid).result = none := by rw [hq]
  refine ⟨by rw [hq], hres, ?_, ?_⟩
  · intro hnot
    simp only [validate, hres]
    rcases hp : stage.pretend_user_exists with _ | _
    · simp
    · rcases hps : stage.password_stage with _ | ps
      · exact absurd ⟨hp, hps⟩ hnot
      · simp [hps]
  · rintro ⟨hp, hps⟩
    simp only [validate, hres, hp, hps]
    simp

/-- Witness for C9 (amended) at a concrete input with `pretend_user_exists`
off: no query is issued and the attempt fails with the generic message. -/
theorem C9_witness :
    stageEmptyFields.user_fields = []
    ∧ (get_user stageEmptyFields [aliceUser] "whoever").queried = false
    ∧ (validate stageEmptyFields [aliceUser] ⟨none, none⟩ "whoever" none none 3
        .noUser .ok).outcome = .error "Failed to authenticate." :=
  ⟨rfl,
   (C9_amended_empty_fields stageEmptyFields [aliceUser] ⟨none, none⟩ "whoever"
     none none 3 .noUser .ok rfl).1,
   (C9_amended_empty_fields stageEmptyFields [aliceUser] ⟨none, none⟩ "whoever"
     none none 3 .noUser .ok rfl).2.2.1 (by decide)⟩

/-- Counterexample to C6 as stated: a stored instance whose hash differs from
the scanned digest gets no apply scheduled when the descriptor's metadata
carries an instantiate label equal to `"false"` case-insensitively — the label
check short-circuits before the hash comparison. -/
theorem C6_counterexample :
    ([instOld].find? (fun j => j.path == bpLabeled.path) = some instOld)
    ∧ instOld.last_applied_hash ≠ bpLabeled.hash
    ∧ (check_blueprint_v1_file [instOld] "freshpk" bpLabeled).2 = [] :=
  ⟨rfl, by decide, by decide⟩

/-- C6 (amended): provided the descriptor's metadata does not carry an
instantiate label equal to `"false"` case-insensitively, one reconciliation
pass schedules exactly one apply task for a stored instance whose
`last_applied_hash` differs from the descriptor's digest, and also exactly one
for a newly created (never applied) instance whose empty hash differs from the
digest; when the stored hash equals the digest, no apply is scheduled. -/
theorem C6_amended_schedule_on_hash_change :
    (∀ (store : List BlueprintInstance) (fresh_pk : String) (bp : BlueprintFile)
        (i : BlueprintInstance),
      store.find? (fun j => j.path == bp.path) = some i →
      instantiateSkipped bp = false →
      i.last_applied_hash ≠ bp.hash →
      (check_blueprint_v1_file store fresh_pk bp).2 = [i.pk])
    ∧ (∀ (store : List BlueprintInstance) (fresh_pk : String) (bp : BlueprintFile)
        (i : BlueprintInstance),
      store.find? (fun j => j.path == bp.path) = some i →
      i.last_applied_hash = bp.hash →
      (check_blueprint_v1_file store fresh_pk bp).2 = [])
    ∧ (∀ (store : List BlueprintInstance) (fresh_pk : String) (bp : BlueprintFile),
      store.find? (fun j => j.path == bp.path) = none →
      instantiateSkipped bp = false →
      bp.hash ≠ "" →
      (check_blueprint_v1_file store fresh_pk bp).2 = [fresh_pk]) := by
  refine ⟨?_, ?_, ?_⟩
  · intro store fresh_pk bp i hfind hskip hne
    simp only [check_blueprint_v1_file, hskip, hfind, Bool.false_eq_true,
      if_false, bne_iff_ne, ne_eq, hne, not_false_eq_true, if_pos]
  · intro store fresh_pk bp i hfind heq
    rcases hskip : instantiateSkipped bp with _ | _
    · simp [check_blueprint_v1_file, hskip, hfind, heq]
    · simp [check_blueprint_v1_file, hskip]
  · intro store fresh_pk bp hfind hskip hne
    simp only [check_blueprint_v1_file, hskip, hfind, Bool.false_eq_true,
      if_false]
    simp [bne_iff_ne, Ne.symm hne]

/-- Witness for C6 (amended) at concrete inputs: a stale stored instance gets
exactly one apply scheduled; an up-to-date one gets none. -/
theorem C6_witness :
    ([instOld].find? (fun j => j.path == bpPlain.path) = some instOld)
    ∧ instantiateSkipped bpPlain = false
    ∧ instOld.last_applied_hash ≠ bpPlain.hash
    ∧ (check_blueprint_v1_file [instOld] "freshpk" bpPlain).2 = [instOld.pk]
    ∧ (check_blueprint_v1_file [instApplied] "freshpk"
        { path := "two.yaml", version := 1, hash := instApplied.last_applied_hash,
          last_m := 0, meta := none }).2 = [] :=
  ⟨rfl, rfl, by decide,
   C6_amended_schedule_on_hash_change.1 [instOld] "freshpk" bpPlain instOld
     rfl rfl (by decide),
   C6_amended_schedule_on_hash_change.2.1 [instApplied] "freshpk"
     { path := "two.yaml", version := 1, hash := instApplied.last_applied_hash,
       last_m := 0, meta := none } instApplied rfl rfl⟩

/-- A path segment that starts with a dot is a non-empty string. -/
theorem startsWithDot_ne_empty (p : String) (hp : pyStartsWith p "." = true) :
    p ≠ "" := by
  intro h
  subst h
  exact absurd hp (by decide)

/-- The Python truthiness idiom `any(part for part in parts if
part.startswith("."))` agrees with "some part starts with a dot". -/
theorem pyHiddenAny_eq_any (parts : List String) :
    pyHiddenAny parts = parts.any fun part => pyStartsWith part "." := by
  induction parts with
  | nil => rfl
  | cons p ps ih =>
    by_cases hp : pyStartsWith p "." = true
    · have hne : (p != "") = true := bne_iff_ne.mpr (startsWithDot_ne_empty p hp)
      simp [pyHiddenAny, List.filter_cons, hp, hne, List.any_cons]
    · have hp2 : pyStartsWith p "." = false := by
        rcases hb : pyStartsWith p "." with _ | _
        · rfl
        · exact absurd hb hp
      simp only [pyHiddenAny, List.filter_cons, hp2, Bool.false_eq_true,
        if_false, List.any_cons, hp2, Bool.false_or]
      exact ih

/-- Counterexample to C8 as stated: the scan's hidden check runs over the full
scanned path including the root's own segments, so a file whose path relative
to the root has no dot-prefixed segment is nevertheless skipped when the root
itself contains one. -/
theorem C8_counterexample :
    hiddenSkip [".hidden-root"] ["good.yaml"] = true
    ∧ (["good.yaml"].any fun part => pyStartsWith part ".") = false :=
  ⟨by decide, by decide⟩

/-- C8 (amended): the scan skips a candidate for hiddenness exactly when some
segment of the full scanned path — the root's own segments followed by the
path relative to the root — starts with a dot; a skipped candidate contributes
nothing to `blueprints_find`, and a candidate with no dot-prefixed segment in
its full path is not skipped for hiddenness (with a parseable version-1
document it yields a descriptor). -/
theorem C8_amended_hidden_skip_full_path :
    (∀ (root_parts rel_parts : List String),
      hiddenSkip root_parts rel_parts
        = (root_parts ++ rel_parts).any fun part => pyStartsWith part ".")
    ∧ (∀ (root_parts : List String) (f : CandidateFile),
      hiddenSkip root_parts f.rel_parts = true →
      processCandidate root_parts f = none)
    ∧ (∀ (root_parts : List String) (f : CandidateFile) (raw : RawDoc),
      hiddenSkip root_parts f.rel_parts = false →
      f.parsed = some raw →
      raw.version = 1 →
      processCandidate root_parts f
        = some { path := String.intercalate "/" f.rel_parts,
                 version := raw.version, hash := f.content_hash,
                 last_m := f.mtime, meta := raw.metadata }) := by
  refine ⟨?_, ?_, ?_⟩
  · intro root_parts rel_parts
    exact pyHiddenAny_eq_any (root_parts ++ rel_parts)
  · intro root_parts f hskip
    simp [processCandidate, hskip]
  · intro root_parts f raw hskip hparsed hver
    simp [processCandidate, hskip, hparsed, hver]

/-- Witness for C8 (amended) at concrete inputs: a candidate under a
dot-prefixed directory is dropped from the scan; a clean candidate is kept. -/
theorem C8_witness :
    hiddenSkip ["blueprints"] [".secret", "bad.yaml"] = true
    ∧ processCandidate ["blueprints"]
        { rel_parts := [".secret", "bad.yaml"],
          parsed := some { metadata := none, version := 1 },
          content_hash := "h2", mtime := 6 } = none
    ∧ hiddenSkip ["blueprints"] ["sub", "good.yaml"] = false
    ∧ processCandidate ["blueprints"]
        { rel_parts := ["sub", "good.yaml"],
          parsed := some { metadata := none, version := 1 },
          content_hash := "h1", mtime := 5 }
      = some { path := String.intercalate "/" ["sub", "good.yaml"], version := 1,
               hash := "h1", last_m := 5, meta := none } :=
  ⟨by decide,
   C8_amended_hidden_skip_full_path.2.1 ["blueprints"]
     { rel_parts := [".secret", "bad.yaml"],
       parsed := some { metadata := none, version := 1 },
       content_hash := "h2", mtime := 6 } (by decide),
   by decide,
   C8_amended_hidden_skip_full_path.2.2 ["blueprints"]
     { rel_parts := ["sub", "good.yaml"],
       parsed := some { metadata := none, version := 1 },
       content_hash := "h1", mtime := 5 }
     { metadata := none, version := 1 } (by decide) rfl rfl⟩

/-- C4: applying the same unchanged blueprint twice — the second apply
retrieving content with the same digest after a first successful apply, with
validation and apply succeeding again — leaves `last_applied_hash` unchanged
after the second run and keeps the status at Successful. -/
theorem C4_apply_idempotent
    (store1 store2 : List BlueprintInstance) (pk c1 c2 : String)
    (digest : String → String) (imp1 imp2 : ImporterModel)
    (logs1 logs2 : List String) (now1 now2 : Nat) (i i1 : BlueprintInstance)
    (hfind1 : store1.find? (fun j => j.pk == pk) = some i)
    (hen : i.enabled = true)
    (hv1 : imp1.validate_result = .ok (true, logs1))
    (ha1 : imp1.apply_result = .ok true)
    (hv2 : imp2.validate_result = .ok (true, logs2))
    (ha2 : imp2.apply_result = .ok true)
    (hdig : digest c2 = digest c1)
    (hres1 : (apply_blueprint store1 pk (.ok c1) digest (fun _ => .ok imp1)
        now1).final_instance = some i1)
    (hfind2 : store2.find? (fun j => j.pk == pk) = some i1) :
    i1.status = .successful
    ∧ i1.last_applied_hash = digest c1
    ∧ (apply_blueprint store2 pk (.ok c2) digest (fun _ => .ok imp2)
        now2).final_instance.map (fun j => j.last_applied_hash)
      = some i1.last_applied_hash
    ∧ (apply_blueprint store2 pk (.ok c2) digest (fun _ => .ok imp2)
        now2).final_instance.map (fun j => j.status)
      = some BlueprintInstanceStatus.successful := by
  rcases hm1 : imp1.metadata with _ | m1 <;>
    rcases hm2 : imp2.metadata with _ | m2 <;>
    [skip; skip; skip; skip] <;>
  · simp [apply_blueprint, hfind1, hen, applyBody, hv1, ha1, hm1] at hres1
    subst hres1
    refine ⟨rfl, rfl, ?_, ?_⟩ <;>
      simp [apply_blueprint, hfind2, hen, applyBody, hv2, ha2, hm2, hdig]

/-- One of the steps inside the `try` body of `apply_blueprint` raises the
recognized exception `e`, the steps before it having succeeded (with
validation passing before the apply step). -/
def failsWith (retrieve : StepResult String)
    (from_string : String → StepResult ImporterModel) (e : RecognizedExc) : Prop :=
  retrieve = .exc e
  ∨ ∃ c, retrieve = .ok c ∧
      (from_string c = .exc e
       ∨ ∃ imp, from_string c = .ok imp ∧
          (imp.validate_result = .exc e
           ∨ ∃ logs, imp.validate_result = .ok (true, logs)
              ∧ imp.apply_result = .exc e))

/-- C5: when the instance is missing the apply task exits silently with
nothing persisted and no status reported; when the instance is disabled it
exits silently too, the cleanup block persisting the unchanged instance with
no status reported; and when any recognized failure class is raised after the
enabled instance was fetched, the task returns normally with the instance's
status set to Error, the instance persisted by the cleanup block, and the
error reported instead of propagating. -/
theorem C5_apply_error_handling :
    (∀ (store : List BlueprintInstance) (pk : String) (retrieve : StepResult String)
        (digest : String → String) (fs : String → StepResult ImporterModel)
        (now : Nat),
      store.find? (fun j => j.pk == pk) = none →
      apply_blueprint store pk retrieve digest fs now
        = { final_instance := none, saved := false, task_status := none })
    ∧ (∀ (store : List BlueprintInstance) (pk : String) (retrieve : StepResult String)
        (digest : String → String) (fs : String → StepResult ImporterModel)
        (now : Nat) (i : BlueprintInstance),
      store.find? (fun j => j.pk == pk) = some i →
      i.enabled = false →
      apply_blueprint store pk retrieve digest fs now
        = { final_instance := some i, saved := true, task_status := none })
    ∧ (∀ (store : List BlueprintInstance) (pk : String) (retrieve : StepResult String)
        (digest : String → String) (fs : String → StepResult ImporterModel)
        (now : Nat) (i : BlueprintInstance) (e : RecognizedExc),
      store.find? (fun j => j.pk == pk) = some i →
      i.enabled = true →
      failsWith retrieve fs e →
      (apply_blueprint store pk retrieve digest fs now).final_instance.map
          (fun j => j.status) = some BlueprintInstanceStatus.error
      ∧ (apply_blueprint store pk retrieve digest fs now).saved = true
      ∧ (apply_blueprint store pk retrieve digest fs now).task_status
        = some (.setError e)) := by
  refine ⟨?_, ?_, ?_⟩
  · intro store pk retrieve digest fs now hfind
    simp [apply_blueprint, hfind]
  · intro store pk retrieve digest fs now i hfind hdis
    simp [apply_blueprint, hfind, hdis]
  · intro store pk retrieve digest fs now i e hfind hen hfail
    have hbody : ∃ j, applyBody i retrieve digest fs now = .error (e, j) := by
      rcases hfail with hret | ⟨c, hret, hfs | ⟨imp, hfs, hval | ⟨logs, hval, happ⟩⟩⟩
      · exact ⟨i, by simp [applyBody, hret]⟩
      · exact ⟨i, by simp [applyBody, hret, hfs]⟩
      · rcases hm : imp.metadata with _ | m
        · exact ⟨i, by simp [applyBody, hret, hfs, hm, hval]⟩
        · exact ⟨{ i with metadata := some m },
            by simp [applyBody, hret, hfs, hm, hval]⟩
      · rcases hm : imp.metadata with _ | m
        · exact ⟨i, by simp [applyBody, hret, hfs, hm, hval, happ]⟩
        · exact ⟨{ i with metadata := some m },
            by simp [applyBody, hret, hfs, hm, hval, happ]⟩
    obtain ⟨j, hj⟩ := hbody
    simp [apply_blueprint, hfind, hen, hj]

/-- Witness for C4 at concrete inputs: a fresh enabled instance is applied
twice with identical content; the second run keeps hash and status. -/
theorem C4_witness :
    ([instFresh].find? (fun j => j.pk == "pk2") = some instFresh)
    ∧ instFresh.enabled = true
    ∧ (apply_blueprint [instFresh] "pk2" (.ok "content") digestTag
        (fun _ => .ok impOk) 100).final_instance = some instApplied
    ∧ ([instApplied].find? (fun j => j.pk == "pk2") = some instApplied)
    ∧ instApplied.status = .successful
    ∧ (apply_blueprint [instApplied] "pk2" (.ok "content") digestTag
        (fun _ => .ok impOk) 200).final_instance.map
          (fun j => j.last_applied_hash) = some instApplied.last_applied_hash
    ∧ (apply_blueprint [instApplied] "pk2" (.ok "content") digestTag
        (fun _ => .ok impOk) 200).final_instance.map (fun j => j.status)
      = some BlueprintInstanceStatus.successful :=
  ⟨rfl, rfl, by decide, rfl,
   (C4_apply_idempotent [instFresh] [instApplied] "pk2" "content" "content"
     digestTag impOk impOk [] [] 100 200 instFresh instApplied rfl rfl rfl rfl
     rfl rfl rfl (by decide) rfl).1,
   (C4_apply_idempotent [instFresh] [instApplied] "pk2" "content" "content"
     digestTag impOk impOk [] [] 100 200 instFresh instApplied rfl rfl rfl rfl
     rfl rfl rfl (by decide) rfl).2.2.1,
   (C4_apply_idempotent [instFresh] [instApplied] "pk2" "content" "content"
     digestTag impOk impOk [] [] 100 200 instFresh instApplied rfl rfl rfl rfl
     rfl rfl rfl (by decide) rfl).2.2.2⟩

/-- Witness for C5 at concrete inputs: unknown pk, a disabled instance, and a
retrieval failure on an enabled instance. -/
theorem C5_witness :
    (([] : List BlueprintInstance).find? (fun j => j.pk == "nope") = none)
    ∧ apply_blueprint [] "nope" (.ok "c") digestTag (fun _ => .ok impOk) 0
      = { final_instance := none, saved := false, task_status := none }
    ∧ ([instDisabled].find? (fun j => j.pk == "pk3") = some instDisabled)
    ∧ instDisabled.enabled = false
    ∧ apply_blueprint [instDisabled] "pk3" (.ok "c") digestTag
        (fun _ => .ok impOk) 0
      = { final_instance := some instDisabled, saved := true, task_status := none }
    ∧ instFresh.enabled = true
    ∧ failsWith (.exc .blueprintRetrievalFailed) (fun _ => .ok impOk)
        .blueprintRetrievalFailed
    ∧ (apply_blueprint [instFresh] "pk2" (.exc .blueprintRetrievalFailed)
        digestTag (fun _ => .ok impOk) 0).final_instance.map (fun j => j.status)
      = some BlueprintInstanceStatus.error
    ∧ (apply_blueprint [instFresh] "pk2" (.exc .blueprintRetrievalFailed)
        digestTag (fun _ => .ok impOk) 0).task_status
      = some (.setError .blueprintRetrievalFailed) :=
  ⟨rfl,
   C5_apply_error_handling.1 [] "nope" (.ok "c") digestTag (fun _ => .ok impOk)
     0 rfl,
   rfl, rfl,
   C5_apply_error_handling.2.1 [instDisabled] "pk3" (.ok "c") digestTag
     (fun _ => .ok impOk) 0 instDisabled rfl rfl,
   rfl,
   Or.inl rfl,
   (C5_apply_error_handling.2.2 [instFresh] "pk2" (.exc .blueprintRetrievalFailed)
     digestTag (fun _ => .ok impOk) 0 instFresh .blueprintRetrievalFailed rfl rfl
     (Or.inl rfl)).1,
   (C5_apply_error_handling.2.2 [instFresh] "pk2" (.exc .blueprintRetrievalFailed)
     digestTag (fun _ => .ok impOk) 0 instFresh .blueprintRetrievalFailed rfl rfl
     (Or.inl rfl)).2.2⟩

end AuthentikModel
